import Mathlib

/-!
Shallow embedding of the blink-detection / sliding-window core of the
ESP32-C3 smart-glasses sleep-schedule app.

Sources embedded here:
- `src/unnamed/part_004` (the BLE NUS utility module): `parseEyeStateToken`,
  `parseBlinkRateFromText`, `parseNusBlinkRate`, `parseHeartRateBlinkRate`,
  `parseEyeStateFromLight` and the threshold constants.
- `src/frontend/src/contexts/BluetoothContext.tsx`: `classifyEyeState` and the
  notification handler `handleCharacteristicValueChanged` (classification,
  blink-edge detection, 60-second window push/prune/count).
- `src/src/frontend/src/hooks/useQueries.ts` (second file in that bundle):
  `useRollingBlinkRateAverage5Min` (5-minute rolling average aggregator).
- `src/frontend/src/utils/personalizedSleepSchedule.ts`: `deriveAlertnessState`.

Numbers: timestamps and light levels are JS numbers holding integers; they are
modelled as `ℤ`/`ℕ`.  Blink-rate values fed to the 5-minute aggregator are
modelled as `ℚ` (the aggregator divides by a count and rounds to one decimal).
Text is modelled as `List Char`; a JS string truthiness test `if (text)` is
modelled as `text ≠ []`.
-/

/-- Eye state as used in BluetoothContext.tsx: `'open' | 'closed' | 'unknown'`.
The source string `'open'` is rendered as the constructor `opened`. -/
inductive EyeState where
  | opened
  | closed
  | unknown
deriving DecidableEq, Repr

/-- Result of `parseEyeStateToken`: `'close' | 'open' | null` (here `Option`).
The source string `'open'` is rendered as the constructor `openTok`. -/
inductive EyeToken where
  | close
  | openTok
deriving DecidableEq, Repr

/-- JS `String.prototype.includes(p)`: `p` occurs as a contiguous substring. -/
def includesSeq (p : List Char) : List Char → Bool
  | [] => p.isPrefixOf []
  | c :: rest => p.isPrefixOf (c :: rest) || includesSeq p rest

/-- JS `String.prototype.trim()`: strip leading and trailing whitespace. -/
def jsTrim (l : List Char) : List Char :=
  ((l.dropWhile Char.isWhitespace).reverse.dropWhile Char.isWhitespace).reverse

/-- JS `text.trim().toLowerCase()` as performed by `parseEyeStateToken`. -/
def trimLower (text : List Char) : List Char :=
  (jsTrim text).map Char.toLower

def closeChars : List Char := "close".toList

def openChars : List Char := "open".toList

/-- bleNus.ts `parseEyeStateToken`: recognizes "close" / "open"
(case-insensitive substring of the trimmed text); "close" is checked first. -/
def parseEyeStateToken (text : List Char) : Option EyeToken :=
  if includesSeq closeChars (trimLower text) then some .close
  else if includesSeq openChars (trimLower text) then some .openTok
  else none

-- Threshold constants from bleNus.ts (single source of truth).

def EYES_CLOSED_MAX : ℤ := 600

def BLINK_MIN : ℤ := 1500

def BLINK_MAX : ℤ := 1700

def EYES_OPEN_MIN : ℤ := 1800

def EYES_OPEN_MAX : ℤ := 2000

/-- BluetoothContext.tsx `classifyEyeState`: light level to EyeState via the
calibrated threshold bands (the open band is tested before the blink band). -/
def classifyEyeState (lightLevel : ℤ) : EyeState :=
  if lightLevel < EYES_CLOSED_MAX then .closed
  else if EYES_OPEN_MIN ≤ lightLevel ∧ lightLevel ≤ EYES_OPEN_MAX then .opened
  else if BLINK_MIN ≤ lightLevel ∧ lightLevel ≤ BLINK_MAX then .closed
  else .unknown

/-- bleNus.ts `parseEyeStateFromLight`: same bands, labelling the sample
`'blink' | 'eyes open' | null` (used only for the local history record). -/
inductive LightLabel where
  | blink
  | eyesOpen
deriving DecidableEq, Repr

def parseEyeStateFromLight (lightLevel : ℤ) : Option LightLabel :=
  if lightLevel < EYES_CLOSED_MAX then some .blink
  else if BLINK_MIN ≤ lightLevel ∧ lightLevel ≤ BLINK_MAX then some .blink
  else if EYES_OPEN_MIN ≤ lightLevel ∧ lightLevel ≤ EYES_OPEN_MAX then some .eyesOpen
  else none

/-- First maximal run of ASCII digits in the text (JS regex `/\d+/`). -/
def firstDigitRun : List Char → Option (List Char)
  | [] => none
  | c :: rest =>
    if c.isDigit then some (c :: rest.takeWhile Char.isDigit)
    else firstDigitRun rest

/-- Decimal value of a digit run (JS `parseInt(run, 10)`). -/
def digitsToNat (ds : List Char) : ℕ :=
  ds.foldl (fun acc c => 10 * acc + (c.toNat - '0'.toNat)) 0

/-- bleNus.ts `parseBlinkRateFromText`: trim, extract the first digit run,
parse it in base 10, and accept the value when it is ≥ 0 (a parsed digit run
is never NaN, so the `isNaN` guard of the source is always false). -/
def parseBlinkRateFromText (text : List Char) : Option ℤ :=
  match firstDigitRun (jsTrim text) with
  | some ds => if (0 : ℤ) ≤ (digitsToNat ds : ℤ) then some (digitsToNat ds : ℤ) else none
  | none => none

/-- bleNus.ts `parseNusBlinkRate`: decodes the same notification payload to
UTF-8 text (the handler already decoded those very bytes into `text`) and then
performs the identical trim / first-digit-run / parseInt extraction as
`parseBlinkRateFromText`; modelled on the decoded text. -/
def parseNusBlinkRate (text : List Char) : Option ℤ :=
  parseBlinkRateFromText text

/-- bleNus.ts `parseHeartRateBlinkRate`: standard Heart Rate Measurement
layout — byte 0 is flags; bit 0 selects a uint8 at offset 1 or a little-endian
uint16 at offset 1 (the 16-bit read additionally requires ≥ 3 bytes);
payloads shorter than 2 bytes yield `none`. -/
def parseHeartRateBlinkRate (bytes : List ℕ) : Option ℤ :=
  if bytes.length < 2 then none
  else
    let flags := bytes.getD 0 0
    if flags &&& 1 ≠ 0 ∧ 3 ≤ bytes.length then
      some ((bytes.getD 1 0 : ℤ) + 256 * (bytes.getD 2 0 : ℤ))
    else if 2 ≤ bytes.length then some (bytes.getD 1 0 : ℤ)
    else none

/-- Alertness state from personalizedSleepSchedule.ts:
`'high-alertness' | 'normal' | 'drowsy'`. -/
inductive AlertnessState where
  | highAlertness
  | normal
  | drowsy
deriving DecidableEq, Repr

structure AlertnessStateInfo where
  label : String
  state : AlertnessState
deriving DecidableEq, Repr

/-- personalizedSleepSchedule.ts `deriveAlertnessState`: BPM > 18 high
alertness, BPM ≥ 10 normal, otherwise drowsy. -/
def deriveAlertnessState (rollingAverageBPM : ℚ) : AlertnessStateInfo :=
  if rollingAverageBPM > 18 then ⟨"State: High Alertness", .highAlertness⟩
  else if rollingAverageBPM ≥ 10 then ⟨"State: Normal", .normal⟩
  else ⟨"State: Drowsy", .drowsy⟩

/-- Classification bands exactly as the claim words them (checked in the
claim's order: closed band, blink band, open band, otherwise unknown). -/
def claimedBands (v : ℤ) : EyeState :=
  if v < 600 then .closed
  else if 1500 ≤ v ∧ v ≤ 1700 then .closed
  else if 1800 ≤ v ∧ v ≤ 2000 then .opened
  else .unknown

/-- C4. Numeric classification bands: with closedMax=600, blinkMin=1500,
blinkMax=1700, openMin=1800, openMax=2000, `classifyEyeState` returns Closed
strictly below 600, Closed on [1500,1700], Open on [1800,2000], Unknown
otherwise; in particular 599→Closed, 1650→Closed, 1750→Unknown, 1900→Open,
2100→Unknown. -/
theorem classifyEyeState_bands :
    (∀ v : ℤ, classifyEyeState v = claimedBands v) ∧
    classifyEyeState 599 = .closed ∧ classifyEyeState 1650 = .closed ∧
    classifyEyeState 1750 = .unknown ∧ classifyEyeState 1900 = .opened ∧
    classifyEyeState 2100 = .unknown := by
  refine ⟨?_, by decide, by decide, by decide, by decide, by decide⟩
  intro v
  unfold classifyEyeState claimedBands EYES_CLOSED_MAX BLINK_MIN BLINK_MAX
    EYES_OPEN_MIN EYES_OPEN_MAX
  split_ifs <;> first | rfl | (exfalso; omega)

/-- C9. Alertness thresholds: `deriveAlertnessState` yields HighAlertness iff
the 5-minute average is strictly greater than 18, Normal iff it lies in
[10, 18], and Drowsy iff it is strictly below 10; the three cases are
exhaustive and mutually exclusive. -/
theorem deriveAlertnessState_thresholds :
    ∀ v : ℚ, ((deriveAlertnessState v).state = .highAlertness ↔ 18 < v) ∧
      ((deriveAlertnessState v).state = .normal ↔ 10 ≤ v ∧ v ≤ 18) ∧
      ((deriveAlertnessState v).state = .drowsy ↔ v < 10) := by
  intro v
  unfold deriveAlertnessState
  split_ifs with h1 h2
  · exact ⟨⟨fun _ => h1, fun _ => rfl⟩,
      ⟨fun h => (nomatch h), fun h => absurd h.2 (not_le.mpr h1)⟩,
      ⟨fun h => (nomatch h), fun h => absurd h (not_lt.mpr (by linarith))⟩⟩
  · exact ⟨⟨fun h => (nomatch h), fun h => absurd h h1⟩,
      ⟨fun _ => ⟨h2, not_lt.mp h1⟩, fun _ => rfl⟩,
      ⟨fun h => (nomatch h), fun h => absurd h2 (not_le.mpr h)⟩⟩
  · exact ⟨⟨fun h => (nomatch h), fun h => absurd h h1⟩,
      ⟨fun h => (nomatch h), fun h => absurd h.1 h2⟩,
      ⟨fun _ => not_le.mp h2, fun _ => rfl⟩⟩

/-- State held by the notification handler: the current-eye-state slot and the
60-second window of blink timestamps (both refs in BluetoothContext.tsx). -/
structure BlinkState where
  currentEyeState : EyeState
  blinkTimestamps : List ℤ
deriving DecidableEq, Repr

def ROLLING_WINDOW_MS : ℤ := 60000

/-- Token-path classification of `handleCharacteristicValueChanged`: the
decoded text (when non-empty — JS truthiness) is scanned for eye-state
tokens; `'close'` maps to closed, `'open'` to opened, no token to unknown. -/
def tokenEyeState (text : List Char) : EyeState :=
  if text ≠ [] then
    match parseEyeStateToken text with
    | some .close => .closed
    | some .openTok => .opened
    | none => .unknown
  else .unknown

/-- Numeric fallback chain of `handleCharacteristicValueChanged`:
`parseBlinkRateFromText` on the decoded text (when non-empty), then
`parseNusBlinkRate` on the payload, then `parseHeartRateBlinkRate`. -/
def resolveNumeric (text : List Char) (bytes : List ℕ) : Option ℤ :=
  let r1 := if text ≠ [] then parseBlinkRateFromText text else none
  let r2 := match r1 with
    | some v => some v
    | none => parseNusBlinkRate text
  match r2 with
  | some v => some v
  | none => parseHeartRateBlinkRate bytes

/-- The `newEyeState` computed by one run of the handler: token path first;
only if it yields unknown is the numeric light level consulted. -/
def classifySample (text : List Char) (bytes : List ℕ) : EyeState :=
  match tokenEyeState text with
  | .unknown =>
    match resolveNumeric text bytes with
    | some v => classifyEyeState v
    | none => .unknown
  | s => s

/-- Whether one run of the handler pushes a blink timestamp: on the token
path a `'close'` token counts whenever the previous state was not closed; on
the numeric path a blink is counted only on an open→closed transition. -/
def blinkEmitted (prev : EyeState) (text : List Char) (bytes : List ℕ) : Bool :=
  match tokenEyeState text with
  | .closed => decide (prev ≠ .closed)
  | .opened => false
  | .unknown =>
    match resolveNumeric text bytes with
    | some v => decide (prev = .opened ∧ classifyEyeState v = .closed)
    | none => false

/-- Output of one run of the handler: the new state, whether a blink event
was recorded, and the emitted 60-second count. -/
structure StepOut where
  state : BlinkState
  emitted : Bool
  reportedCount : ℕ
deriving DecidableEq, Repr

/-- One synchronous run of `handleCharacteristicValueChanged` on a decoded
notification (battery/charging parsing and the fire-and-forget backend and
local-history writes touch no state modelled here): classify, push a blink
timestamp on a qualifying transition, update the current-eye-state slot
unless the new state is unknown, prune the 60-second window, and emit the
retained count. -/
def handleCharacteristicValueChanged (now : ℤ) (text : List Char)
    (bytes : List ℕ) (s : BlinkState) : StepOut :=
  let newEyeState := classifySample text bytes
  let emitted := blinkEmitted s.currentEyeState text bytes
  let ts := if emitted then s.blinkTimestamps ++ [now] else s.blinkTimestamps
  let current' := if newEyeState ≠ .unknown then newEyeState else s.currentEyeState
  let ts' := ts.filter (fun t => decide (now - ROLLING_WINDOW_MS ≤ t))
  ⟨⟨current', ts'⟩, emitted, ts'.length⟩

/-- Number of blink events recorded while processing a list of
(timestamp, decoded text, payload bytes) notifications in order. -/
def runCount : List (ℤ × List Char × List ℕ) → BlinkState → ℕ
  | [], _ => 0
  | (now, text, bytes) :: rest, s =>
    let out := handleCharacteristicValueChanged now text bytes s
    (if out.emitted then 1 else 0) + runCount rest out.state

/-- Classified state of each notification in a list (the `newEyeState` each
run of the handler computes; it does not depend on the handler state). -/
def classifiedStates (inputs : List (ℤ × List Char × List ℕ)) : List EyeState :=
  inputs.map (fun p => classifySample p.2.1 p.2.2)

/-- The 60-second window operation performed when a blink fires: push the
event timestamp, then prune everything older than 60 seconds
(`blink.timestamp >= now - ROLLING_WINDOW_MS` is retained). -/
def windowRecord (now : ℤ) (ts : List ℤ) : List ℤ :=
  (ts ++ [now]).filter (fun t => decide (now - ROLLING_WINDOW_MS ≤ t))

/-- The 60-second read: prune, then count the retained timestamps (the value
handed to `onBlinkRateChange`). -/
def windowCount (now : ℤ) (ts : List ℤ) : ℕ :=
  (ts.filter (fun t => decide (now - ROLLING_WINDOW_MS ≤ t))).length

/-- C5. Sliding-window invariant and 60-second pruning: after a handler run
(which appends and prunes) every retained timestamp is at most 60000 ms old,
and likewise after a bare `windowRecord`; recording blinks at t=0, 10000 and
70000 and reading the count at t=75000 yields exactly 1. -/
theorem window_invariant_and_scenario :
    (∀ (now : ℤ) (text : List Char) (bytes : List ℕ) (s : BlinkState),
      ∀ t ∈ (handleCharacteristicValueChanged now text bytes s).state.blinkTimestamps,
        now - t ≤ ROLLING_WINDOW_MS) ∧
    (∀ (now : ℤ) (ts : List ℤ), ∀ t ∈ windowRecord now ts,
      now - t ≤ ROLLING_WINDOW_MS) ∧
    windowCount 75000 (windowRecord 70000 (windowRecord 10000 (windowRecord 0 []))) = 1 := by
  refine ⟨?_, ?_, by decide⟩
  · intro now text bytes s t ht
    have h := (List.mem_filter.mp ht).2
    have h' := of_decide_eq_true h
    omega
  · intro now ts t ht
    have h := (List.mem_filter.mp ht).2
    have h' := of_decide_eq_true h
    omega

/-- Witness for C5: the retained timestamp 70000 in a window read at 75000 is
at most 60000 ms old. -/
theorem window_invariant_and_scenario_witness :
    (75000 : ℤ) - 70000 ≤ ROLLING_WINDOW_MS :=
  window_invariant_and_scenario.2.1 75000 [70000] 70000 (by decide)

/-- Structured-binary layout exactly as the claim words it: byte 0 is flags;
with flag bit 0 clear the value is the unsigned byte at offset 1, with flag
bit 0 set it is the little-endian unsigned 16-bit at offset 1 — a read that
needs bytes at offsets 1 and 2, so on a 2-byte bit-set payload no such value
exists; payloads with fewer than 2 bytes are absent. -/
def claimedHeartRateLayout (bytes : List ℕ) : Option ℤ :=
  if bytes.length < 2 then none
  else if bytes.getD 0 0 &&& 1 ≠ 0 then
    if 3 ≤ bytes.length then some ((bytes.getD 1 0 : ℤ) + 256 * (bytes.getD 2 0 : ℤ))
    else none
  else some (bytes.getD 1 0 : ℤ)

/-- Counterexample to C8: on the 2-byte payload [1, 52] the flag bit is set,
yet the source falls back to the 1-byte read and returns 52 — not the
claimed 16-bit little-endian read at offset 1, which does not exist in a
2-byte payload. -/
theorem parseHeartRateBlinkRate_flag_counterexample :
    ([1, 52] : List ℕ).getD 0 0 &&& 1 ≠ 0 ∧
    parseHeartRateBlinkRate [1, 52] = some 52 ∧
    claimedHeartRateLayout [1, 52] = none ∧
    parseHeartRateBlinkRate [1, 52] ≠ claimedHeartRateLayout [1, 52] := by
  decide

/-- C8 (amended). Structured-binary decode layout: payloads shorter than
2 bytes give an absent result; with flag bit 0 clear the value is the
unsigned byte at offset 1; with flag bit 0 set and at least 3 bytes present
the value is the little-endian unsigned 16-bit at offset 1; on a 2-byte
payload with the flag bit set the decoder falls back to the unsigned byte at
offset 1. -/
theorem parseHeartRateBlinkRate_layout :
    (∀ bytes : List ℕ, bytes.length < 2 → parseHeartRateBlinkRate bytes = none) ∧
    (∀ bytes : List ℕ, 2 ≤ bytes.length → bytes.getD 0 0 &&& 1 = 0 →
      parseHeartRateBlinkRate bytes = some (bytes.getD 1 0 : ℤ)) ∧
    (∀ bytes : List ℕ, 3 ≤ bytes.length → bytes.getD 0 0 &&& 1 ≠ 0 →
      parseHeartRateBlinkRate bytes = some ((bytes.getD 1 0 : ℤ) + 256 * (bytes.getD 2 0 : ℤ))) ∧
    (∀ bytes : List ℕ, bytes.length = 2 → bytes.getD 0 0 &&& 1 ≠ 0 →
      parseHeartRateBlinkRate bytes = some (bytes.getD 1 0 : ℤ)) := by
  refine ⟨?_, ?_, ?_, ?_⟩
  · intro bytes h
    unfold parseHeartRateBlinkRate
    rw [if_pos h]
  · intro bytes h hflag
    unfold parseHeartRateBlinkRate
    rw [if_neg (by omega)]
    rw [if_neg (fun hc => hc.1 hflag)]
    rw [if_pos h]
  · intro bytes h hflag
    unfold parseHeartRateBlinkRate
    rw [if_neg (by omega)]
    rw [if_pos ⟨hflag, h⟩]
  · intro bytes h hflag
    unfold parseHeartRateBlinkRate
    rw [if_neg (by omega)]
    rw [if_neg (fun hc => by have h3 := hc.2; omega)]
    rw [if_pos (by omega)]

/-- Witness for C8 (amended): a 1-byte payload is absent; [0, 50] (flag
clear) reads the byte 50; [1, 52, 8] (flag set) reads the little-endian
16-bit 2100; [1, 52] (flag set, 2 bytes) falls back to the byte 52. -/
theorem parseHeartRateBlinkRate_layout_witness :
    parseHeartRateBlinkRate [1] = none ∧
    parseHeartRateBlinkRate [0, 50] = some 50 ∧
    parseHeartRateBlinkRate [1, 52, 8] = some 2100 ∧
    parseHeartRateBlinkRate [1, 52] = some 52 :=
  ⟨parseHeartRateBlinkRate_layout.1 [1] (by decide),
   (parseHeartRateBlinkRate_layout.2.1 [0, 50] (by decide) (by decide)).trans (by decide),
   (parseHeartRateBlinkRate_layout.2.2.1 [1, 52, 8] (by decide) (by decide)).trans (by decide),
   (parseHeartRateBlinkRate_layout.2.2.2 [1, 52] (by decide) (by decide)).trans (by decide)⟩

/-- The claim predicate "the decoded text contains a case-insensitive
close substring", expressed through the same trim/lowercase normalization the
source applies (trimming cannot affect whether the whitespace-free token
occurs). -/
def containsCloseCI (text : List Char) : Bool :=
  includesSeq closeChars (trimLower text)

/-- The claim predicate "the decoded text contains a case-insensitive
open substring" (same normalization). -/
def containsOpenCI (text : List Char) : Bool :=
  includesSeq openChars (trimLower text)

lemma containsCloseCI_ne_nil {text : List Char} (h : containsCloseCI text = true) :
    text ≠ [] := by
  rintro rfl
  exact absurd h (by decide)

lemma containsOpenCI_ne_nil {text : List Char} (h : containsOpenCI text = true) :
    text ≠ [] := by
  rintro rfl
  exact absurd h (by decide)

lemma parseEyeStateToken_eq_close {text : List Char}
    (h : containsCloseCI text = true) :
    parseEyeStateToken text = some EyeToken.close := by
  unfold containsCloseCI at h
  unfold parseEyeStateToken
  rw [if_pos h]

lemma parseEyeStateToken_openTok_iff (text : List Char) :
    parseEyeStateToken text = some EyeToken.openTok ↔
      containsOpenCI text = true ∧ containsCloseCI text = false := by
  unfold parseEyeStateToken containsOpenCI containsCloseCI
  rcases hc : includesSeq closeChars (trimLower text) <;>
    rcases ho : includesSeq openChars (trimLower text) <;> simp

lemma tokenEyeState_eq_closed {text : List Char}
    (h : containsCloseCI text = true) : tokenEyeState text = EyeState.closed := by
  unfold tokenEyeState
  rw [if_pos (containsCloseCI_ne_nil h), parseEyeStateToken_eq_close h]

lemma tokenEyeState_eq_opened {text : List Char}
    (ho : containsOpenCI text = true) (hc : containsCloseCI text = false) :
    tokenEyeState text = EyeState.opened := by
  unfold tokenEyeState
  rw [if_pos (containsOpenCI_ne_nil ho),
    (parseEyeStateToken_openTok_iff text).mpr ⟨ho, hc⟩]

lemma classifySample_of_token {text : List Char} (bytes : List ℕ)
    (h : tokenEyeState text ≠ EyeState.unknown) :
    classifySample text bytes = tokenEyeState text := by
  unfold classifySample
  rcases h' : tokenEyeState text with _ | _ | _ <;> simp_all

lemma handle_emitted (now : ℤ) (text : List Char) (bytes : List ℕ) (s : BlinkState) :
    (handleCharacteristicValueChanged now text bytes s).emitted =
      blinkEmitted s.currentEyeState text bytes := rfl

/-- Counterexample to C1: a numeric-path sample (payload [0, 50], light level
50) classified Closed while the previous state is Unknown appends no blink
timestamp — the handler's numeric path counts only Open→Closed, so the
claimed if-and-only-if fails for the Unknown→Closed transition. -/
theorem blink_iff_counterexample :
    ¬ ((handleCharacteristicValueChanged 0 [] [0, 50] ⟨.unknown, []⟩).emitted = true ↔
        ((BlinkState.mk .unknown []).currentEyeState ≠ .closed ∧
          classifySample [] [0, 50] = .closed)) := by
  decide

/-- C1 (amended). Blink edge rule as the code implements it: a blink event is
recorded iff the sample classifies Closed and either the close token was the
trigger and the previous state was not Closed (token path), or no token was
recognized and the previous state was exactly Open (numeric path). -/
theorem blink_emission_rule :
    ∀ (now : ℤ) (text : List Char) (bytes : List ℕ) (s : BlinkState),
      (handleCharacteristicValueChanged now text bytes s).emitted = true ↔
        (classifySample text bytes = .closed ∧
          ((tokenEyeState text = .closed ∧ s.currentEyeState ≠ .closed) ∨
           (tokenEyeState text ≠ .closed ∧ s.currentEyeState = .opened))) := by
  intro now text bytes s
  rw [handle_emitted]
  unfold blinkEmitted classifySample
  rcases h : tokenEyeState text with _ | _ | _
  · simp [h]
  · simp [h]
  · rcases hr : resolveNumeric text bytes with _ | v
    · simp [h, hr]
    · simp only [h, hr, decide_eq_true_eq]
      constructor
      · rintro ⟨h1, h2⟩
        exact ⟨h2, Or.inr ⟨by simp, h1⟩⟩
      · rintro ⟨h1, h2 | h3⟩
        · exact absurd h2.1 (by simp)
        · exact ⟨h3.2, h1⟩

/-- Numeric-path realization of the classified-state sequence
[Unknown, Closed, Unknown, Closed]: the decoded texts "2100" and "500" (each
payload is the UTF-8 encoding of its text, as the handler always decodes the
very bytes it receives) carry light levels 2100 and 500 via the numeric text
path. -/
def c2NumericInputs : List (ℤ × List Char × List ℕ) :=
  [(0, "2100".toList, [50, 49, 48, 48]), (1, "500".toList, [53, 48, 48]),
   (2, "2100".toList, [50, 49, 48, 48]), (3, "500".toList, [53, 48, 48])]

/-- Token-path realization of the same classified-state sequence:
an unrecognized digit-free text, "close", the same text, "close" (payloads
are again the UTF-8 encodings of the texts). -/
def c2TokenInputs : List (ℤ × List Char × List ℕ) :=
  [(0, "x".toList, [120]), (1, "close".toList, [99, 108, 111, 115, 101]),
   (2, "x".toList, [120]), (3, "close".toList, [99, 108, 111, 115, 101])]

/-- Counterexample to C2's consequence: a numeric-path realization of the
classified-state sequence [Unknown, Closed, Unknown, Closed] (texts "2100",
"500", "2100", "500") records zero blink events (the numeric path counts
only Open→Closed), not exactly one. -/
theorem unknown_sequence_counterexample :
    classifiedStates c2NumericInputs = [.unknown, .closed, .unknown, .closed] ∧
    runCount c2NumericInputs ⟨.unknown, []⟩ = 0 := by
  decide

/-- C2 (amended). The current-eye-state slot is updated to the newly
classified state exactly when that state is not Unknown (an Unknown sample
leaves the slot unchanged); the classified sequence
[Unknown, Closed, Unknown, Closed] produces exactly one blink event when it
arrives via the token path (on the numeric path it produces none). -/
theorem unknown_never_overwrites :
    (∀ (now : ℤ) (text : List Char) (bytes : List ℕ) (s : BlinkState),
      (handleCharacteristicValueChanged now text bytes s).state.currentEyeState =
        if classifySample text bytes ≠ .unknown then classifySample text bytes
        else s.currentEyeState) ∧
    classifiedStates c2TokenInputs = [.unknown, .closed, .unknown, .closed] ∧
    runCount c2TokenInputs ⟨.unknown, []⟩ = 1 :=
  ⟨fun _ _ _ _ => rfl, by decide, by decide⟩

/-- Counterexample to C3: the decoded text "open close" contains a
case-insensitive "open" substring, yet classification returns Closed (the
close token is checked first), not Open. -/
theorem token_priority_counterexample :
    containsOpenCI "open close".toList = true ∧
    classifySample "open close".toList [] = .closed ∧
    classifySample "open close".toList [] ≠ .opened := by
  decide

/-- C3 (amended). Token priority: a decoded text containing a
case-insensitive "close" substring classifies Closed, one containing "open"
but no "close" classifies Open, in both cases via the token path — the
numeric-threshold path is never consulted (the classification is independent
of the payload bytes whenever a token is recognized); in particular
"close 1400" classifies Closed regardless of the numeric value 1400. -/
theorem token_priority :
    (∀ (text : List Char) (bytes : List ℕ), containsCloseCI text = true →
      classifySample text bytes = .closed) ∧
    (∀ (text : List Char) (bytes : List ℕ), containsOpenCI text = true →
      containsCloseCI text = false → classifySample text bytes = .opened) ∧
    (∀ (text : List Char) (bytes1 bytes2 : List ℕ), tokenEyeState text ≠ .unknown →
      classifySample text bytes1 = classifySample text bytes2) ∧
    classifySample "close 1400".toList [] = .closed := by
  refine ⟨?_, ?_, ?_, by decide⟩
  · intro text bytes h
    rw [classifySample_of_token bytes (by rw [tokenEyeState_eq_closed h]; decide),
      tokenEyeState_eq_closed h]
  · intro text bytes ho hc
    rw [classifySample_of_token bytes (by rw [tokenEyeState_eq_opened ho hc]; decide),
      tokenEyeState_eq_opened ho hc]
  · intro text bytes1 bytes2 h
    rw [classifySample_of_token bytes1 h, classifySample_of_token bytes2 h]

/-- Witness for C3 (amended): "bright close" classifies Closed and
"wide open" classifies Open, each via the token path. -/
theorem token_priority_witness :
    classifySample "bright close".toList [] = .closed ∧
    classifySample "wide open".toList [] = .opened :=
  ⟨token_priority.1 "bright close".toList [] (by decide),
   token_priority.2.1 "wide open".toList [] (by decide) (by decide)⟩

/-- C10. Close token beats open token: whenever the decoded text contains
both a case-insensitive "close" and a case-insensitive "open" substring,
`parseEyeStateToken` returns the close token and the sample classifies
Closed; the open token is recognized exactly when an "open" substring is
present and no "close" substring is. -/
theorem close_token_beats_open :
    (∀ (text : List Char) (bytes : List ℕ), containsCloseCI text = true →
      containsOpenCI text = true →
      parseEyeStateToken text = some EyeToken.close ∧
        classifySample text bytes = .closed) ∧
    (∀ text : List Char, parseEyeStateToken text = some EyeToken.openTok ↔
      (containsOpenCI text = true ∧ containsCloseCI text = false)) := by
  refine ⟨?_, parseEyeStateToken_openTok_iff⟩
  intro text bytes hc _
  refine ⟨parseEyeStateToken_eq_close hc, ?_⟩
  rw [classifySample_of_token bytes (by rw [tokenEyeState_eq_closed hc]; decide),
    tokenEyeState_eq_closed hc]

/-- Witness for C10: "close open" contains both tokens, parses to the close
token and classifies Closed. -/
theorem close_token_beats_open_witness :
    parseEyeStateToken "close open".toList = some EyeToken.close ∧
    classifySample "close open".toList [] = .closed :=
  close_token_beats_open.1 "close open".toList [] (by decide) (by decide)


def FIVE_MINUTES_MS : ℤ := 300000

/-- One sample of the 5-minute aggregator (useQueries.ts `BlinkRatePoint`). -/
structure BlinkRatePoint where
  timestamp : ℤ
  blinkRate : ℚ
deriving DecidableEq, Repr

/-- The read-side filter of the hook: the retained (non-expired) points
(`point.timestamp >= now - FIVE_MINUTES_MS`). -/
def recentPoints (now : ℤ) (pts : List BlinkRatePoint) : List BlinkRatePoint :=
  List.filter (fun p => decide (now - FIVE_MINUTES_MS ≤ p.timestamp)) pts

/-- useQueries.ts `useRollingBlinkRateAverage5Min.addDataPoint`: append the
new point, then prune points older than 5 minutes (same retention test). -/
def addDataPoint (now : ℤ) (blinkRate : ℚ) (pts : List BlinkRatePoint) :
    List BlinkRatePoint :=
  List.filter (fun p => decide (now - FIVE_MINUTES_MS ≤ p.timestamp))
    (pts ++ [{ timestamp := now, blinkRate := blinkRate }])

/-- JS `Math.round(q * 10) / 10` (Math.round rounds half toward +∞, as does
Mathlib's `round`). -/
def jsRoundTenth (q : ℚ) : ℚ := (round (q * 10) : ℤ) / 10

/-- The triple the hook returns to its consumers. -/
structure FiveMinReading where
  rollingAverage : ℚ
  hasRecentData : Bool
  dataPointCount : ℕ
deriving DecidableEq, Repr

/-- useQueries.ts `useRollingBlinkRateAverage5Min` read side: filter to the
5-minute window, report the mean of the retained blink rates rounded to one
decimal (0 when empty), whether any point remains, and the retained count. -/
def readFiveMin (now : ℤ) (pts : List BlinkRatePoint) : FiveMinReading :=
  let recent := recentPoints now pts
  let rollingAverage : ℚ :=
    if 0 < recent.length then (recent.map BlinkRatePoint.blinkRate).sum / (recent.length : ℚ)
    else 0
  ⟨jsRoundTenth rollingAverage, decide (0 < recent.length), recent.length⟩

/-- Exact arithmetic mean of a retained sample list, as the claim words it
(sum divided by count with non-integer division; 0 when empty). -/
def exactMean (pts : List BlinkRatePoint) : ℚ :=
  if 0 < pts.length then (pts.map BlinkRatePoint.blinkRate).sum / (pts.length : ℚ)
  else 0

lemma addDataPoint_eq_recentPoints (now : ℤ) (q : ℚ) (pts : List BlinkRatePoint) :
    addDataPoint now q pts =
      recentPoints now (pts ++ [{ timestamp := now, blinkRate := q }]) := rfl

lemma recentPoints_all {now : ℤ} {pts : List BlinkRatePoint}
    (h : ∀ p ∈ pts, now - FIVE_MINUTES_MS ≤ p.timestamp) :
    recentPoints now pts = pts :=
  List.filter_eq_self.mpr (fun p hp => decide_eq_true (h p hp))

/-- Three same-instant records with values 0, 0, 1: retained mean 1/3. -/
def c6State : List BlinkRatePoint :=
  addDataPoint 0 1 (addDataPoint 0 0 (addDataPoint 0 0 []))

lemma c6State_eq : c6State = [⟨0, 0⟩, ⟨0, 0⟩, ⟨0, 1⟩] := by
  decide

/-- Counterexample to C6: after recording values 0, 0, 1 at t=0, the exact
mean of the retained samples is 1/3 but the hook reports 3/10 — the reported
rollingAverage is rounded to one decimal, not the exact mean. -/
theorem rollingAverage_not_exact :
    exactMean (recentPoints 0 c6State) = 1/3 ∧
    (readFiveMin 0 c6State).rollingAverage = 3/10 ∧
    (readFiveMin 0 c6State).rollingAverage ≠ exactMean (recentPoints 0 c6State) := by
  have hrec : recentPoints 0 c6State = [⟨0, 0⟩, ⟨0, 0⟩, ⟨0, 1⟩] := by
    rw [c6State_eq]
    exact recentPoints_all (by decide)
  have hmean : exactMean (recentPoints 0 c6State) = 1/3 := by
    rw [hrec]
    norm_num [exactMean, List.map_cons, List.sum_cons]
  have havg : (readFiveMin 0 c6State).rollingAverage = 3/10 := by
    show jsRoundTenth _ = 3/10
    rw [hrec]
    norm_num [jsRoundTenth, round_eq, List.map_cons, List.sum_cons]
  refine ⟨hmean, havg, ?_⟩
  rw [hmean, havg]
  norm_num

/-- C6 (amended). The reported rollingAverage equals the exact arithmetic
mean of the currently retained samples rounded to the nearest tenth
(recomputed from the retained set on every read), and the whole reading
depends only on the current retained set, not on earlier call history. -/
theorem rollingAverage_rounded_mean :
    (∀ (now : ℤ) (pts : List BlinkRatePoint),
      (readFiveMin now pts).rollingAverage = jsRoundTenth (exactMean (recentPoints now pts))) ∧
    (∀ (now : ℤ) (pts1 pts2 : List BlinkRatePoint),
      recentPoints now pts1 = recentPoints now pts2 →
      readFiveMin now pts1 = readFiveMin now pts2) := by
  constructor
  · intro now pts
    rfl
  · intro now pts1 pts2 h
    unfold readFiveMin
    rw [h]

/-- Witness for C6 (amended): a fully expired sample leaves the reading
identical to the never-recorded reading. -/
theorem rollingAverage_rounded_mean_witness :
    readFiveMin 400000 [⟨0, 5⟩] = readFiveMin 400000 [] :=
  rollingAverage_rounded_mean.2 400000 [⟨0, 5⟩] [] (by decide)

/-- C7. Empty-vs-zero distinction: with no retained samples (never recorded,
or all expired) the hook reports hasRecentData = false; after one record of
value 0 at the current time it reports hasRecentData = true with a reported
average of 0 — the empty case is distinguishable from a zero-valued average. -/
theorem empty_vs_zero :
    ((readFiveMin 0 []).hasRecentData = false) ∧
    (∀ (now : ℤ) (pts : List BlinkRatePoint),
      (∀ p ∈ pts, p.timestamp < now - FIVE_MINUTES_MS) →
      (readFiveMin now pts).hasRecentData = false) ∧
    (∀ now : ℤ,
      (readFiveMin now (addDataPoint now 0 [])).hasRecentData = true ∧
      (readFiveMin now (addDataPoint now 0 [])).rollingAverage = 0) := by
  refine ⟨by decide, ?_, ?_⟩
  · intro now pts h
    have hrec : recentPoints now pts = [] :=
      List.filter_eq_nil_iff.mpr (fun p hp => by
        simpa using not_le.mpr (h p hp))
    simp [readFiveMin, hrec]
  · intro now
    have hone : ∀ p ∈ [({ timestamp := now, blinkRate := 0 } : BlinkRatePoint)],
        now - FIVE_MINUTES_MS ≤ p.timestamp := by
      intro p hp
      rw [List.mem_singleton] at hp
      subst hp
      show now - FIVE_MINUTES_MS ≤ now
      unfold FIVE_MINUTES_MS
      omega
    have hadd : addDataPoint now 0 [] = [{ timestamp := now, blinkRate := 0 }] := by
      rw [addDataPoint_eq_recentPoints, List.nil_append]
      exact recentPoints_all hone
    have hrec : recentPoints now [({ timestamp := now, blinkRate := 0 } : BlinkRatePoint)] =
        [{ timestamp := now, blinkRate := 0 }] :=
      recentPoints_all hone
    rw [hadd]
    constructor
    · simp [readFiveMin, hrec]
    · show jsRoundTenth _ = 0
      rw [hrec]
      norm_num [jsRoundTenth, List.map_cons, List.sum_cons]

/-- Witness for C7: a single sample recorded at t=50000 has fully expired by
t=400000, so the reading reports no recent data. -/
theorem empty_vs_zero_witness :
    (readFiveMin 400000 [⟨50000, 3⟩]).hasRecentData = false :=
  empty_vs_zero.2.1 400000 [⟨50000, 3⟩] (by decide)
